import Mathlib

/-
Verification of the glados check-in program (src/service.rs, src/main.rs,
src/config.rs, src/logger.rs) via a shallow embedding.

External collaborators (HTTP transport, serde_json parsing of the response
body, the Log Sink, the clock) are modelled as oracle inputs:
- the outcome of one HTTP exchange is an `AttemptInput` (header construction
  failure, transport failure, or a response carrying the displayed status,
  the raw body text, and the result of `serde_json::from_str` on the body);
- the Log Sink is a function `String → Except String Unit` (`.ok` means the
  append succeeded, `.error e` carries the io error's display text);
- timestamps are an opaque string `now` (`chrono::Local::now().format(..)`).

Side effects are collected in an `Effects` record: successfully appended log
lines, stdout lines (`println!`), stderr lines (`eprintln!`), the sequence of
`sleep` durations, and the number of check-in attempts performed.
-/

namespace Glados

/-- Account record from src/config.rs: email and session cookie. -/
structure Account where
  email : String
  cookie : String
deriving Repr, DecidableEq

/-- Run configuration from src/config.rs. -/
structure Config where
  accounts : List Account
  max_retries : Nat
  retry_delay : Nat
  log_file : String

/-- JSON values as produced by serde_json (numbers restricted to the
integer values relevant to `as_i64`). -/
inductive Json where
  | null : Json
  | bool : Bool → Json
  | num : Int → Json
  | str : String → Json
  | arr : List Json → Json
  | obj : List (String × Json) → Json
deriving Repr

/-- serde_json `Value` indexing `v[key]`: the value under `key` when `v`
is an object containing it, `Null` otherwise. -/
def Json.index (j : Json) (key : String) : Json :=
  match j with
  | .obj fields =>
    match fields.find? (fun p => p.1 == key) with
    | some p => p.2
    | none => .null
  | _ => .null

/-- serde_json `Value::as_i64`: the integer when the value is an integer
number, `none` otherwise. -/
def Json.as_i64 : Json → Option Int
  | .num n => some n
  | _ => none

/-- serde_json `Value::as_str`. -/
def Json.as_str : Json → Option String
  | .str s => some s
  | _ => none

/-- serde_json `Value::as_array`. -/
def Json.as_array : Json → Option (List Json)
  | .arr xs => some xs
  | _ => none

/-- The Log Sink (`Logger::log`): `.ok ()` when the append succeeded,
`.error e` carrying the io error text. -/
def Logger : Type := String → Except String Unit

/-- Oracle describing what one `try_checkin` call observes from the outside
world: failure to build the cookie header, transport failure of the HTTP
exchange, or a response with its displayed status code, raw body text, and
the result of parsing the body with `serde_json::from_str`. -/
inductive AttemptInput where
  | headerErr : String → AttemptInput
  | transportErr : String → AttemptInput
  | response : String → String → Except String Json → AttemptInput
deriving Repr

/-- Observable side effects of a run: appended log lines, stdout lines,
stderr lines, sleep durations (seconds), attempts performed. -/
structure Effects where
  log : List String := []
  out : List String := []
  err : List String := []
  sleeps : List Nat := []
  attempts : Nat := 0
deriving Repr, DecidableEq

def Effects.append (x y : Effects) : Effects :=
  ⟨x.log ++ y.log, x.out ++ y.out, x.err ++ y.err,
   x.sleeps ++ y.sleeps, x.attempts + y.attempts⟩

instance : Append Effects := ⟨Effects.append⟩

/-- Effects of one attempt, before its own output is merged in. -/
def oneAttempt : Effects := { attempts := 1 }

/-- Rust `s.split('.').next()`: the split iterator's first element is the
prefix of `s` before the first `'.'` and is always present (splitting the
empty string yields one empty segment). -/
def splitDotNext (s : String) : Option String :=
  some (String.mk (s.data.takeWhile (fun c => c != '.')))

/-- Success log line written by `try_checkin`
(`format!("[{}] Account: {}, Message: {}, Change: {}, Balance: {}", ..)`). -/
def successLog (now email message change balance : String) : String :=
  "[" ++ now ++ "] Account: " ++ email ++ ", Message: " ++ message ++
    ", Change: " ++ change ++ ", Balance: " ++ balance

/-- Failure log line written by `checkin` at retry exhaustion
(`format!("[{}] 账户 {} 签到失败 (重试{}次后): {}", ..)`). -/
def checkinFailLog (now email : String) (n : Nat) (e : String) : String :=
  "[" ++ now ++ "] 账户 " ++ email ++ " 签到失败 (重试" ++ toString n ++
    "次后): " ++ e

/-- Failure log line written by `main`'s per-account handler
(`format!("[{}] 账户 {} 处理失败: {}", ..)`). -/
def processFailLog (now email e : String) : String :=
  "[" ++ now ++ "] 账户 " ++ email ++ " 处理失败: " ++ e

/-- `CheckinService::try_checkin` (src/service.rs lines 45-89): one
check-in attempt. Returns the Rust function's `Result` outcome together
with the side effects it performed. -/
def tryCheckin (logger : Logger) (now : String) (account : Account)
    (input : AttemptInput) : Except String Unit × Effects :=
  match input with
  | .headerErr e => (.error e, {})
  | .transportErr e => (.error e, {})
  | .response status body parsed =>
    match parsed with
    | .error e =>
      (.error ("响应解析失败: " ++ e ++ "\n响应内容: " ++ body), {})
    | .ok response_json =>
      if (response_json.index "code").as_i64.getD 0 == 1 then
        let message := (response_json.index "message").as_str.getD "No message"
        match (response_json.index "list").as_array.bind List.head? with
        | some first_item =>
          let change :=
            (splitDotNext ((first_item.index "change").as_str.getD "0")).getD "0"
          let balance :=
            (splitDotNext ((first_item.index "balance").as_str.getD "0")).getD "0"
          let log_content := successLog now account.email message change balance
          match logger log_content with
          | .ok _ => (.ok (), { log := [log_content], out := [log_content] })
          | .error le => (.error le, { out := [log_content] })
        | none => (.ok (), {})
      else
        let error_message := (response_json.index "message").as_str.getD "未知错误"
        (.error ("签到失败 - HTTP状态码: " ++ status ++ ", 错误信息: " ++
          error_message), {})

/-- `CheckinService::checkin` (src/service.rs lines 24-43) unrolled from an
arbitrary value of the `retries` counter; attempt number `i` observes the
oracle value `inputs i`. -/
def checkinFrom (logger : Logger) (now : String) (account : Account)
    (inputs : Nat → AttemptInput) (retry_delay : Nat) (max_retries : Nat)
    (retries : Nat) : Except String Unit × Effects :=
  match tryCheckin logger now account (inputs retries) with
  | (.ok _, eff) => (.ok (), oneAttempt ++ eff)
  | (.error e, eff) =>
    let rs := retries + 1
    if max_retries ≤ rs then
      let error_log := checkinFailLog now account.email rs e
      match logger error_log with
      | .ok _ =>
        (.error e, oneAttempt ++ eff ++ { err := [error_log], log := [error_log] })
      | .error le =>
        (.error le, oneAttempt ++ eff ++ { err := [error_log] })
    else
      let rest :=
        checkinFrom logger now account inputs retry_delay max_retries rs
      (rest.1, oneAttempt ++ eff ++ { sleeps := [retry_delay] } ++ rest.2)
termination_by max_retries - retries
decreasing_by simp_wf; omega

/-- `CheckinService::checkin`: the retry loop starting at `retries = 0`. -/
def checkin (logger : Logger) (now : String) (account : Account)
    (inputs : Nat → AttemptInput) (retry_delay : Nat) (max_retries : Nat) :
    Except String Unit × Effects :=
  checkinFrom logger now account inputs retry_delay max_retries 0

/-- The per-account task body in `main` (src/main.rs lines 173-190):
run `checkin` and, on error, log a "处理失败" line, echo it to stderr, and
swallow a failure of that very log write (reporting it on stderr). -/
def processAccount (logger : Logger) (now : String) (account : Account)
    (inputs : Nat → AttemptInput) (retry_delay : Nat) (max_retries : Nat) :
    Effects :=
  match checkin logger now account inputs retry_delay max_retries with
  | (.ok _, eff) => eff
  | (.error e, eff) =>
    let error_log := processFailLog now account.email e
    match logger error_log with
    | .ok _ => eff ++ { err := [error_log], log := [error_log] }
    | .error log_err => eff ++ { err := [error_log, "记录日志失败: " ++ log_err] }

/-- `Config::validate` (src/config.rs lines 30-41). -/
def Config.validate (c : Config) : Except String Unit :=
  if c.accounts.isEmpty then .error "No accounts configured"
  else if c.max_retries == 0 then .error "max_retries must be greater than 0"
  else if c.log_file.isEmpty then .error "log_file path must not be empty"
  else .ok ()

/-- `Config::load_from_file` after the file read and deserialization
(modelled by the oracle `parsed`): validation is applied to the parsed
configuration. -/
def load_from_file (parsed : Except String Config) : Except String Config :=
  match parsed with
  | .error e => .error e
  | .ok config =>
    match config.validate with
    | .error e => .error e
    | .ok _ => .ok config

/-- `main` (src/main.rs lines 160-195): load the configuration, build the
client, then process every account (one task per account; the model runs
the tasks in list order) and return `Ok` — i.e. exit code 0. `.error`
corresponds to a non-zero process exit. `inputs i j` is the oracle value
for attempt `j` of the account at position `i`. -/
def mainRun (parsed : Except String Config) (clientBuild : Except String Unit)
    (logger : Logger) (now : String) (inputs : Nat → Nat → AttemptInput) :
    Except String (List Effects) :=
  match load_from_file parsed with
  | .error e => .error e
  | .ok config =>
    match clientBuild with
    | .error e => .error e
    | .ok _ =>
      .ok (config.accounts.enum.map
        (fun p => processAccount logger now p.2 (inputs p.1)
          config.retry_delay config.max_retries))

/-- A Log Sink whose every append succeeds. -/
def okLogger : Logger := fun _ => .ok ()

/-- A Log Sink whose every append fails with io error text "disk full". -/
def failLogger : Logger := fun _ => .error "disk full"

/-- Sample account. -/
def acct : Account := ⟨"user@example.com", "cookie=abc"⟩

/-- A parsed response body denoting business failure (`code` 0). -/
def failJson : Json := Json.obj [("code", Json.num 0)]

/-- An attempt observing a business-failure response. -/
def failInput : AttemptInput :=
  .response "500 Internal Server Error" "code 0 body" (.ok failJson)

/-- The business-failure error produced by `failInput`. -/
def failMsg : String :=
  "签到失败 - HTTP状态码: 500 Internal Server Error, 错误信息: 未知错误"

/-- A parsed response body denoting business success with one list entry. -/
def successJson : Json :=
  Json.obj [("code", Json.num 1), ("message", Json.str "Checkin! Got 1 Points"),
    ("list", Json.arr [Json.obj
      [("change", Json.str "1"), ("balance", Json.str "99.5")]])]

/-- First `list` element of `successJson`. -/
def successItem : Json :=
  Json.obj [("change", Json.str "1"), ("balance", Json.str "99.5")]

/-- An attempt observing a business-success response. -/
def successInput : AttemptInput := .response "200 OK" "code 1 body" (.ok successJson)

/-- The success log line produced by `successInput` for `acct` at time "T". -/
def successMsg : String :=
  "[T] Account: user@example.com, Message: Checkin! Got 1 Points, Change: 1, Balance: 99"

/-- The success log line `try_checkin` writes for a response `j` whose first
`list` element is `first_item`, for account email `email` at time `now`. -/
def successLineOf (now email : String) (j first_item : Json) : String :=
  successLog now email ((j.index "message").as_str.getD "No message")
    ((splitDotNext ((first_item.index "change").as_str.getD "0")).getD "0")
    ((splitDotNext ((first_item.index "balance").as_str.getD "0")).getD "0")

/-- Modelled from the spec's words: a decimal string truncated at the first
`'.'` character without rounding — the longest prefix containing no `'.'`. -/
def truncDot (s : String) : String :=
  String.mk (s.data.takeWhile (fun c => c != '.'))

/-- A response with `code = 1` and no `list` field. -/
def emptyListJson : Json := Json.obj [("code", Json.num 1)]

/-- An attempt observing a success response without a `list` field. -/
def emptyListInput : AttemptInput := .response "200 OK" "code 1 no list" (.ok emptyListJson)

/-- First `list` element whose `change` is the JSON string "0.5". -/
def dotFiveItem : Json := Json.obj [("change", Json.str "0.5"), ("balance", Json.str "3")]

/-- Success response whose first `list` element is `dotFiveItem`. -/
def dotFiveJson : Json :=
  Json.obj [("code", Json.num 1), ("message", Json.str "m"),
    ("list", Json.arr [dotFiveItem])]

/-- An attempt observing `dotFiveJson`. -/
def dotFiveInput : AttemptInput := .response "200 OK" "code 1 body" (.ok dotFiveJson)

/-- A valid configuration with one account. -/
def cfg : Config := ⟨[acct], 2, 7, "glados.log"⟩

@[simp] theorem Effects.append_eq (x y : Effects) :
    x ++ y = ⟨x.log ++ y.log, x.out ++ y.out, x.err ++ y.err,
      x.sleeps ++ y.sleeps, x.attempts + y.attempts⟩ := rfl

theorem data_append (a b : String) : (a ++ b).data = a.data ++ b.data := rfl

theorem str_append_assoc (a b c : String) : (a ++ b) ++ c = a ++ (b ++ c) := by
  apply String.ext
  simp [data_append]

/-- Under a Log Sink that accepts every append, an attempt that returns
`Err` performed no side effects at all: in particular it wrote no log line. -/
theorem tryCheckin_error_eq (logger : Logger) (now : String) (account : Account)
    (input : AttemptInput) (e : String)
    (hlog : ∀ s, logger s = .ok ())
    (h : (tryCheckin logger now account input).1 = .error e) :
    tryCheckin logger now account input = (.error e, {}) := by
  unfold tryCheckin at h ⊢
  cases input with
  | headerErr e0 => simp_all
  | transportErr e0 => simp_all
  | response status body parsed =>
    cases parsed with
    | error pe => simp_all
    | ok j =>
      cases hc : ((j.index "code").as_i64.getD 0 == 1) with
      | false => simp_all
      | true =>
        simp only [hc, if_true] at h ⊢
        cases hl : ((j.index "list").as_array.bind List.head?) with
        | none => simp_all
        | some first_item => simp_all

/-- Behaviour of the retry loop from an arbitrary counter value when every
attempt fails and the Log Sink accepts every append: `k + 1` further
attempts happen (indices `retries` to `retries + k`), separated by `k`
sleeps of `retry_delay`, one exhaustion line is logged and echoed to
stderr, and the final attempt's error is returned. -/
theorem checkinFrom_fail_spec (logger : Logger) (now : String) (account : Account)
    (inputs : Nat → AttemptInput) (retry_delay max_retries : Nat) (es : Nat → String)
    (hlog : ∀ s, logger s = .ok ())
    (hfail : ∀ i, (tryCheckin logger now account (inputs i)).1 = .error (es i)) :
    ∀ k retries, max_retries = retries + k + 1 →
      checkinFrom logger now account inputs retry_delay max_retries retries =
        (.error (es (retries + k)),
         { log := [checkinFailLog now account.email max_retries (es (retries + k))],
           out := [],
           err := [checkinFailLog now account.email max_retries (es (retries + k))],
           sleeps := List.replicate k retry_delay,
           attempts := k + 1 }) := by
  intro k
  induction k with
  | zero =>
    intro retries hm
    have htc := tryCheckin_error_eq logger now account (inputs retries) (es retries)
      hlog (hfail retries)
    rw [checkinFrom, htc]
    have hge : max_retries ≤ retries + 1 := by omega
    simp [hge, hlog, oneAttempt, hm]
  | succ k ih =>
    intro retries hm
    have htc := tryCheckin_error_eq logger now account (inputs retries) (es retries)
      hlog (hfail retries)
    rw [checkinFrom, htc]
    have hlt : ¬ (max_retries ≤ retries + 1) := by omega
    simp only [if_neg hlt]
    rw [ih (retries + 1) (by omega)]
    have harg : retries + 1 + k = retries + (k + 1) := by omega
    rw [harg]
    simp [oneAttempt, List.replicate_succ]
    omega

/-- `checkin` when every attempt fails and the Log Sink accepts every
append: `max_retries` attempts, `max_retries - 1` sleeps, one exhaustion
log line, and the final attempt's error returned. -/
theorem checkin_fail_spec (logger : Logger) (now : String) (account : Account)
    (inputs : Nat → AttemptInput) (retry_delay max_retries : Nat) (es : Nat → String)
    (hlog : ∀ s, logger s = .ok ())
    (hfail : ∀ i, (tryCheckin logger now account (inputs i)).1 = .error (es i))
    (hN : 1 ≤ max_retries) :
    checkin logger now account inputs retry_delay max_retries =
      (.error (es (max_retries - 1)),
       { log := [checkinFailLog now account.email max_retries (es (max_retries - 1))],
         out := [],
         err := [checkinFailLog now account.email max_retries (es (max_retries - 1))],
         sleeps := List.replicate (max_retries - 1) retry_delay,
         attempts := max_retries }) := by
  rw [checkin]
  have h := checkinFrom_fail_spec logger now account inputs retry_delay max_retries es
    hlog hfail (max_retries - 1) 0 (by omega)
  rw [h]
  have h0 : 0 + (max_retries - 1) = max_retries - 1 := by omega
  rw [h0]
  have h1 : max_retries - 1 + 1 = max_retries := by omega
  rw [h1]

/-- A successful first attempt ends the retry loop at once. -/
theorem checkin_first_ok (logger : Logger) (now : String) (account : Account)
    (inputs : Nat → AttemptInput) (retry_delay max_retries : Nat) (eff : Effects)
    (h : tryCheckin logger now account (inputs 0) = (.ok (), eff)) :
    checkin logger now account inputs retry_delay max_retries =
      (.ok (), oneAttempt ++ eff) := by
  rw [checkin, checkinFrom, h]

/-- The per-account task when every attempt fails: the exhaustion line from
`checkin` plus the distinct "处理失败" line from `main`, both also echoed to
stderr. -/
theorem processAccount_fail_spec (logger : Logger) (now : String) (account : Account)
    (inputs : Nat → AttemptInput) (retry_delay max_retries : Nat) (es : Nat → String)
    (hlog : ∀ s, logger s = .ok ())
    (hfail : ∀ i, (tryCheckin logger now account (inputs i)).1 = .error (es i))
    (hN : 1 ≤ max_retries) :
    processAccount logger now account inputs retry_delay max_retries =
      { log := [checkinFailLog now account.email max_retries (es (max_retries - 1)),
                processFailLog now account.email (es (max_retries - 1))],
        out := [],
        err := [checkinFailLog now account.email max_retries (es (max_retries - 1)),
                processFailLog now account.email (es (max_retries - 1))],
        sleeps := List.replicate (max_retries - 1) retry_delay,
        attempts := max_retries } := by
  rw [processAccount,
    checkin_fail_spec logger now account inputs retry_delay max_retries es hlog hfail hN]
  simp [hlog]

/-- The exhaustion log line and `main`'s "处理失败" line never coincide:
after the shared `[timestamp] 账户 <email> ` part they continue with
different characters. -/
theorem checkinFailLog_ne_processFailLog (now email : String) (n : Nat) (e1 e2 : String) :
    checkinFailLog now email n e1 ≠ processFailLog now email e2 := by
  intro h
  have hd : (checkinFailLog now email n e1).data = (processFailLog now email e2).data := by
    rw [h]
  simp only [checkinFailLog, processFailLog, data_append, List.append_assoc] at hd
  simp [List.append_right_inj, List.cons_append, List.cons.injEq] at hd

/-- The exhaustion log line decomposed: it contains the timestamp, the
account email, the attempt count and the error detail. -/
theorem checkinFailLog_decomp (now email : String) (n : Nat) (e : String) :
    checkinFailLog now email n e =
      "[" ++ (now ++ ("] 账户 " ++ (email ++
        (" 签到失败 (重试" ++ (toString n ++ ("次后): " ++ e)))))) := by
  simp [checkinFailLog, str_append_assoc]

/-- C1 counterexample. -/
theorem c1_counterexample :
    (tryCheckin failLogger "T" acct successInput).1 = .error "disk full" ∧
    (tryCheckin failLogger "T" acct successInput).2.err = [] ∧
    (checkin failLogger "T" acct (fun _ => successInput) 7 2).2.sleeps = [7] := by
  refine ⟨rfl, rfl, ?_⟩
  have h : tryCheckin failLogger "T" acct successInput =
      (.error "disk full", { out := [successMsg] }) := rfl
  have hc : checkin failLogger "T" acct (fun _ => successInput) 7 2 =
      (.error "disk full",
        { log := [], out := [successMsg, successMsg],
          err := [checkinFailLog "T" "user@example.com" 2 "disk full"],
          sleeps := [7], attempts := 2 }) := by
    rw [checkin, checkinFrom]
    simp only [h]
    norm_num
    rw [checkinFrom]
    simp only [h]
    norm_num [failLogger]
    simp [oneAttempt, acct, checkinFailLog]
  rw [hc]

/-- C1 (amended): a Log Sink failure on the success log line is propagated
as the attempt's `Err` after the line is printed to stdout. -/
theorem c1_amended (logger : Logger) (now : String) (account : Account)
    (status body : String) (j first_item : Json) (rest : List Json) (e : String)
    (hcode : (j.index "code").as_i64.getD 0 = 1)
    (hlist : (j.index "list").as_array = some (first_item :: rest))
    (hlogfail : logger (successLineOf now account.email j first_item) = .error e) :
    tryCheckin logger now account (.response status body (.ok j)) =
      (.error e, { out := [successLineOf now account.email j first_item] }) ∧
    (∀ (c : Config) (inputsAll : Nat → Nat → AttemptInput),
      c.validate = .ok () →
      (mainRun (.ok c) (.ok ()) logger now inputsAll).isOk = true) := by
  constructor
  · unfold successLineOf at hlogfail ⊢
    unfold tryCheckin
    simp only [hcode, hlist]
    norm_num
    rw [hlogfail]
  · intro c inputsAll hv
    rw [mainRun]
    simp [load_from_file, hv, Except.isOk, Except.toBool]

theorem c1_amended_witness :
    tryCheckin failLogger "T" acct (.response "200 OK" "code 1 body" (.ok successJson)) =
      (.error "disk full",
        { out := [successLineOf "T" acct.email successJson successItem] }) ∧
    (∀ (c : Config) (inputsAll : Nat → Nat → AttemptInput),
      c.validate = .ok () →
      (mainRun (.ok c) (.ok ()) failLogger "T" inputsAll).isOk = true) :=
  c1_amended failLogger "T" acct "200 OK" "code 1 body" successJson successItem []
    "disk full" rfl rfl rfl

/-- C2: retry exhaustion writes exactly one failure log line, containing the
timestamp, email, attempt count and error detail, and returns the final
attempt's error. -/
theorem c2_exhaustion_log (logger : Logger) (now : String) (account : Account)
    (inputs : Nat → AttemptInput) (retry_delay max_retries : Nat) (es : Nat → String)
    (hlog : ∀ s, logger s = .ok ())
    (hfail : ∀ i, (tryCheckin logger now account (inputs i)).1 = .error (es i))
    (hN : 1 ≤ max_retries) :
    (checkin logger now account inputs retry_delay max_retries).1 =
      .error (es (max_retries - 1)) ∧
    (checkin logger now account inputs retry_delay max_retries).2.log =
      [checkinFailLog now account.email max_retries (es (max_retries - 1))] ∧
    checkinFailLog now account.email max_retries (es (max_retries - 1)) =
      "[" ++ (now ++ ("] 账户 " ++ (account.email ++ (" 签到失败 (重试" ++
        (toString max_retries ++ ("次后): " ++ es (max_retries - 1))))))) := by
  rw [checkin_fail_spec logger now account inputs retry_delay max_retries es hlog hfail hN]
  exact ⟨rfl, rfl, checkinFailLog_decomp now account.email max_retries (es (max_retries - 1))⟩

theorem c2_witness :
    (1 ≤ 2) ∧
    ((checkin okLogger "T" acct (fun _ => failInput) 7 2).1 = .error failMsg ∧
     (checkin okLogger "T" acct (fun _ => failInput) 7 2).2.log =
       [checkinFailLog "T" acct.email 2 failMsg] ∧
     checkinFailLog "T" acct.email 2 failMsg =
       "[" ++ ("T" ++ ("] 账户 " ++ (acct.email ++ (" 签到失败 (重试" ++
         (toString 2 ++ ("次后): " ++ failMsg))))))) :=
  ⟨by omega,
   c2_exhaustion_log okLogger "T" acct (fun _ => failInput) 7 2 (fun _ => failMsg)
     (fun _ => rfl) (fun _ => rfl) (by omega)⟩

/-- C3: when every attempt fails, `max_retries = N` performs exactly `N`
attempts with exactly `N - 1` sleeps of `retry_delay` seconds and returns
exactly one failure outcome. -/
theorem c3_attempt_count (logger : Logger) (now : String) (account : Account)
    (inputs : Nat → AttemptInput) (retry_delay max_retries : Nat) (es : Nat → String)
    (hlog : ∀ s, logger s = .ok ())
    (hfail : ∀ i, (tryCheckin logger now account (inputs i)).1 = .error (es i))
    (hN : 1 ≤ max_retries) :
    (checkin logger now account inputs retry_delay max_retries).2.attempts =
      max_retries ∧
    (checkin logger now account inputs retry_delay max_retries).2.sleeps =
      List.replicate (max_retries - 1) retry_delay ∧
    (checkin logger now account inputs retry_delay max_retries).1 =
      .error (es (max_retries - 1)) := by
  rw [checkin_fail_spec logger now account inputs retry_delay max_retries es hlog hfail hN]
  exact ⟨rfl, rfl, rfl⟩

theorem c3_witness :
    (1 ≤ 1) ∧
    ((checkin okLogger "T" acct (fun _ => failInput) 7 1).2.attempts = 1 ∧
     (checkin okLogger "T" acct (fun _ => failInput) 7 1).2.sleeps = [] ∧
     (checkin okLogger "T" acct (fun _ => failInput) 7 1).1 = .error failMsg) :=
  ⟨by omega,
   c3_attempt_count okLogger "T" acct (fun _ => failInput) 7 1 (fun _ => failMsg)
     (fun _ => rfl) (fun _ => rfl) (by omega)⟩

/-- C4: `code = 1` with `list` absent or empty: attempt returns `Ok` with no
side effects (no log line), and the retry loop ends after one attempt. -/
theorem c4_empty_list_success (logger : Logger) (now : String) (account : Account)
    (status body : String) (j : Json)
    (hcode : (j.index "code").as_i64.getD 0 = 1)
    (hlist : (j.index "list").as_array = none ∨ (j.index "list").as_array = some []) :
    tryCheckin logger now account (.response status body (.ok j)) = (.ok (), {}) ∧
    (∀ (inputs : Nat → AttemptInput) (retry_delay max_retries : Nat),
      inputs 0 = .response status body (.ok j) →
      checkin logger now account inputs retry_delay max_retries =
        (.ok (), { attempts := 1 })) := by
  have h1 : tryCheckin logger now account (.response status body (.ok j)) = (.ok (), {}) := by
    unfold tryCheckin
    simp only [hcode]
    rcases hlist with h | h <;> simp [h]
  refine ⟨h1, ?_⟩
  intro inputs retry_delay max_retries h0
  have := checkin_first_ok logger now account inputs retry_delay max_retries {}
    (by rw [h0]; exact h1)
  rw [this]
  simp [oneAttempt]

theorem c4_witness :
    ((emptyListJson.index "code").as_i64.getD 0 = 1 ∧
     (emptyListJson.index "list").as_array = none) ∧
    (tryCheckin okLogger "T" acct (.response "200 OK" "code 1 no list" (.ok emptyListJson)) =
      (.ok (), {}) ∧
     checkin okLogger "T" acct (fun _ => emptyListInput) 7 3 = (.ok (), { attempts := 1 })) := by
  have h := c4_empty_list_success okLogger "T" acct "200 OK" "code 1 no list" emptyListJson
    rfl (Or.inl rfl)
  exact ⟨⟨rfl, rfl⟩, h.1, h.2 (fun _ => emptyListInput) 7 3 rfl⟩

theorem c5_truncation (logger : Logger) (now : String) (account : Account)
    (status body : String) (j first_item : Json) (rest : List Json)
    (hlog : ∀ s, logger s = .ok ())
    (hcode : (j.index "code").as_i64.getD 0 = 1)
    (hlist : (j.index "list").as_array = some (first_item :: rest)) :
    tryCheckin logger now account (.response status body (.ok j)) =
      (.ok (), { log := [successLineOf now account.email j first_item],
                 out := [successLineOf now account.email j first_item] }) ∧
    successLineOf now account.email j first_item =
      successLog now account.email ((j.index "message").as_str.getD "No message")
        (truncDot ((first_item.index "change").as_str.getD "0"))
        (truncDot ((first_item.index "balance").as_str.getD "0")) ∧
    truncDot "12.50" = "12" ∧ truncDot "-3" = "-3" ∧ truncDot "0" = "0" := by
  refine ⟨?_, rfl, by decide, by decide, by decide⟩
  unfold successLineOf
  unfold tryCheckin
  simp only [hcode, hlist]
  norm_num
  rw [hlog]

theorem c5_witness :
    ((successJson.index "code").as_i64.getD 0 = 1 ∧
     (successJson.index "list").as_array = some (successItem :: [])) ∧
    (tryCheckin okLogger "T" acct successInput =
      (.ok (), { log := [successLineOf "T" acct.email successJson successItem],
                 out := [successLineOf "T" acct.email successJson successItem] }) ∧
     successLineOf "T" acct.email successJson successItem =
      successLog "T" acct.email ((successJson.index "message").as_str.getD "No message")
        (truncDot ((successItem.index "change").as_str.getD "0"))
        (truncDot ((successItem.index "balance").as_str.getD "0")) ∧
     truncDot "12.50" = "12" ∧ truncDot "-3" = "-3" ∧ truncDot "0" = "0") :=
  ⟨⟨rfl, rfl⟩,
   c5_truncation okLogger "T" acct "200 OK" "code 1 body" successJson successItem []
     (fun _ => rfl) rfl rfl⟩

/-- C6: with a parseable body, business success is exactly `code = 1`
(integer read, default 0), independently of the HTTP status, which appears
only inside the business-failure message. -/
theorem c6_code_classification (logger : Logger) (now : String) (account : Account)
    (status body : String) (j : Json)
    (hlog : ∀ s, logger s = .ok ()) :
    ((tryCheckin logger now account (.response status body (.ok j))).1 = .ok () ↔
      (j.index "code").as_i64.getD 0 = 1) ∧
    (∀ status2 : String, (j.index "code").as_i64.getD 0 = 1 →
      tryCheckin logger now account (.response status body (.ok j)) =
        tryCheckin logger now account (.response status2 body (.ok j))) ∧
    ((j.index "code").as_i64.getD 0 ≠ 1 →
      (tryCheckin logger now account (.response status body (.ok j))).1 =
        .error ("签到失败 - HTTP状态码: " ++ status ++ ", 错误信息: " ++
          (j.index "message").as_str.getD "未知错误")) := by
  by_cases hc : (j.index "code").as_i64.getD 0 = 1
  · refine ⟨?_, ?_, fun hn => absurd hc hn⟩
    · unfold tryCheckin
      simp only [hc]
      norm_num
      cases hl : ((j.index "list").as_array.bind List.head?) with
      | none => simp
      | some first_item => simp [hlog]
    · intro status2 _
      unfold tryCheckin
      simp only [hc]
      norm_num
  · refine ⟨?_, fun _ h => absurd h hc, ?_⟩
    · unfold tryCheckin
      have hcb : ((j.index "code").as_i64.getD 0 == 1) = false := by
        simp [hc]
      simp [hcb]
      exact hc
    · intro _
      unfold tryCheckin
      have hcb : ((j.index "code").as_i64.getD 0 == 1) = false := by
        simp [hc]
      simp [hcb]

theorem c6_witness :
    (((failJson.index "code").as_i64.getD 0 = 1 → False) ∧
     ((successJson.index "code").as_i64.getD 0 = 1)) ∧
    (((tryCheckin okLogger "T" acct (.response "500 Internal Server Error" "code 0 body"
        (.ok failJson))).1 = .ok () ↔ (failJson.index "code").as_i64.getD 0 = 1) ∧
     (∀ status2 : String, (failJson.index "code").as_i64.getD 0 = 1 →
      tryCheckin okLogger "T" acct (.response "500 Internal Server Error" "code 0 body" (.ok failJson)) =
        tryCheckin okLogger "T" acct (.response status2 "code 0 body" (.ok failJson))) ∧
     ((failJson.index "code").as_i64.getD 0 ≠ 1 →
      (tryCheckin okLogger "T" acct (.response "500 Internal Server Error" "code 0 body"
        (.ok failJson))).1 =
        .error ("签到失败 - HTTP状态码: " ++ "500 Internal Server Error" ++ ", 错误信息: " ++
          (failJson.index "message").as_str.getD "未知错误"))) :=
  ⟨⟨by decide, by decide⟩,
   c6_code_classification okLogger "T" acct "500 Internal Server Error" "code 0 body"
     failJson (fun _ => rfl)⟩

/-- C7: an unparseable body yields an error carrying the raw body verbatim:
the message is the fixed prelude, the parse error, the fixed separator, and
the raw body, from which the body is recovered by dropping the prelude. -/
theorem c7_parse_roundtrip (logger : Logger) (now : String) (account : Account)
    (status body e : String) :
    tryCheckin logger now account (.response status body (.error e)) =
      (.error ("响应解析失败: " ++ e ++ "\n响应内容: " ++ body), {}) ∧
    ("响应解析失败: " ++ e ++ "\n响应内容: " ++ body).data.drop
      ("响应解析失败: " ++ e ++ "\n响应内容: ").data.length = body.data := by
  refine ⟨rfl, ?_⟩
  have h1 : ("响应解析失败: " ++ e ++ "\n响应内容: " ++ body).data =
      ("响应解析失败: " ++ e ++ "\n响应内容: ").data ++ body.data := data_append _ _
  rw [h1, List.drop_left]

/-- C8: an exhausted account produces exactly two failure-related log lines
— the exhaustion line from `checkin` and a distinct "处理失败" line from
`main` — and both are also emitted on the error stream. -/
theorem c8_double_logging (logger : Logger) (now : String) (account : Account)
    (inputs : Nat → AttemptInput) (retry_delay max_retries : Nat) (es : Nat → String)
    (hlog : ∀ s, logger s = .ok ())
    (hfail : ∀ i, (tryCheckin logger now account (inputs i)).1 = .error (es i))
    (hN : 1 ≤ max_retries) :
    (processAccount logger now account inputs retry_delay max_retries).log =
      [checkinFailLog now account.email max_retries (es (max_retries - 1)),
       processFailLog now account.email (es (max_retries - 1))] ∧
    (processAccount logger now account inputs retry_delay max_retries).err =
      [checkinFailLog now account.email max_retries (es (max_retries - 1)),
       processFailLog now account.email (es (max_retries - 1))] ∧
    checkinFailLog now account.email max_retries (es (max_retries - 1)) ≠
      processFailLog now account.email (es (max_retries - 1)) := by
  rw [processAccount_fail_spec logger now account inputs retry_delay max_retries es
    hlog hfail hN]
  exact ⟨rfl, rfl,
    checkinFailLog_ne_processFailLog now account.email max_retries
      (es (max_retries - 1)) (es (max_retries - 1))⟩

theorem c8_witness :
    (1 ≤ 2) ∧
    ((processAccount okLogger "T" acct (fun _ => failInput) 7 2).log =
      [checkinFailLog "T" acct.email 2 failMsg, processFailLog "T" acct.email failMsg] ∧
     (processAccount okLogger "T" acct (fun _ => failInput) 7 2).err =
      [checkinFailLog "T" acct.email 2 failMsg, processFailLog "T" acct.email failMsg] ∧
     checkinFailLog "T" acct.email 2 failMsg ≠ processFailLog "T" acct.email failMsg) :=
  ⟨by omega,
   c8_double_logging okLogger "T" acct (fun _ => failInput) 7 2 (fun _ => failMsg)
     (fun _ => rfl) (fun _ => rfl) (by omega)⟩

/-- C9: with configuration accepted and the client built, the process runs
every account's task and exits 0 (`.ok`, one `Effects` per account) no
matter what the attempts did; a non-zero exit (`.error`) happens exactly
when deserialization, validation or client construction fails. -/
theorem c9_exit_code (logger : Logger) (now : String) :
    (∀ (c : Config) (inputsAll : Nat → Nat → AttemptInput), c.validate = .ok () →
      mainRun (.ok c) (.ok ()) logger now inputsAll =
        .ok (c.accounts.enum.map (fun p => processAccount logger now p.2 (inputsAll p.1)
          c.retry_delay c.max_retries)) ∧
      (c.accounts.enum.map (fun p => processAccount logger now p.2 (inputsAll p.1)
          c.retry_delay c.max_retries)).length = c.accounts.length) ∧
    (∀ (e : String) (cb : Except String Unit) (inputsAll : Nat → Nat → AttemptInput),
      mainRun (.error e) cb logger now inputsAll = .error e) ∧
    (∀ (c : Config) (e : String) (inputsAll : Nat → Nat → AttemptInput),
      c.validate = .ok () →
      mainRun (.ok c) (.error e) logger now inputsAll = .error e) ∧
    (∀ (c : Config) (e : String) (cb : Except String Unit)
      (inputsAll : Nat → Nat → AttemptInput), c.validate = .error e →
      mainRun (.ok c) cb logger now inputsAll = .error e) := by
  refine ⟨?_, ?_, ?_, ?_⟩
  · intro c inputsAll hv
    rw [mainRun]
    simp [load_from_file, hv, List.enum_length]
  · intro e cb inputsAll
    rw [mainRun]
    simp [load_from_file]
  · intro c e inputsAll hv
    rw [mainRun]
    simp [load_from_file, hv]
  · intro c e cb inputsAll hv
    rw [mainRun]
    simp [load_from_file, hv]

theorem c9_witness :
    (cfg.validate = .ok ()) ∧
    (mainRun (.ok cfg) (.ok ()) okLogger "T" (fun _ _ => failInput) =
      .ok (cfg.accounts.enum.map (fun p => processAccount okLogger "T" p.2
        ((fun _ _ => failInput) p.1) cfg.retry_delay cfg.max_retries)) ∧
     (cfg.accounts.enum.map (fun p => processAccount okLogger "T" p.2
        ((fun _ _ => failInput) p.1) cfg.retry_delay cfg.max_retries)).length =
       cfg.accounts.length) :=
  ⟨rfl, (c9_exit_code okLogger "T").1 cfg (fun _ _ => failInput) rfl⟩

theorem c10_counterexample :
    (dotFiveItem.index "change").as_str = some "0.5" ∧
    (tryCheckin okLogger "T" acct dotFiveInput).2.log =
      ["[T] Account: user@example.com, Message: m, Change: 0, Balance: 3"] :=
  ⟨rfl, rfl⟩

/-- C10 (amended): a change/balance field present as a JSON string `s` is
recorded as the first `'.'`-segment of `s` — the `unwrap_or("0")` defaults
are never selected — so "" and ".5" are recorded as ""; "0" is recorded
when the field is absent, not a JSON string, or its first segment is "0". -/
theorem c10_amended (logger : Logger) (now : String) (account : Account)
    (status body : String) (j first_item : Json) (rest : List Json) (s t : String)
    (hlog : ∀ s2, logger s2 = .ok ())
    (hcode : (j.index "code").as_i64.getD 0 = 1)
    (hlist : (j.index "list").as_array = some (first_item :: rest))
    (hch : (first_item.index "change").as_str = some s)
    (hbal : (first_item.index "balance").as_str = some t) :
    tryCheckin logger now account (.response status body (.ok j)) =
      (.ok (), { log := [successLog now account.email
                  ((j.index "message").as_str.getD "No message") (truncDot s) (truncDot t)],
                 out := [successLog now account.email
                  ((j.index "message").as_str.getD "No message") (truncDot s) (truncDot t)] }) ∧
    truncDot "" = "" ∧ truncDot ".5" = "" ∧ truncDot "0.5" = "0" := by
  refine ⟨?_, by decide, by decide, by decide⟩
  unfold tryCheckin
  simp only [hcode, hlist, hch, hbal]
  norm_num
  rw [hlog]
  simp only [hch, hbal]
  norm_num [splitDotNext, truncDot]

theorem c10_amended_witness :
    ((successItem.index "change").as_str = some "1" ∧
     (successItem.index "balance").as_str = some "99.5") ∧
    (tryCheckin okLogger "T" acct (.response "200 OK" "code 1 body" (.ok successJson)) =
      (.ok (), { log := [successLog "T" acct.email
                  ((successJson.index "message").as_str.getD "No message")
                  (truncDot "1") (truncDot "99.5")],
                 out := [successLog "T" acct.email
                  ((successJson.index "message").as_str.getD "No message")
                  (truncDot "1") (truncDot "99.5")] }) ∧
     truncDot "" = "" ∧ truncDot ".5" = "" ∧ truncDot "0.5" = "0") :=
  ⟨⟨rfl, rfl⟩,
   c10_amended okLogger "T" acct "200 OK" "code 1 body" successJson successItem []
     "1" "99.5" (fun _ => rfl) rfl rfl rfl rfl⟩

end Glados
